import Mathlib

/-!
Verification development for the bazeni-na-dan REST backend
(access-control and listing-visibility core).

The TypeScript sources are shallowly embedded as executable Lean
definitions: the Mongo store is a `List` of documents, dates are `Nat`
timestamps, Mongo query filters become boolean predicates pushed to
`List.filter` / `List.find?`, and the atomic conditional operations
`findOneAndDelete` / `findOneAndUpdate` become single-pass list
transformations.  External collaborators (bcryptjs, jsonwebtoken) are
embedded as idealized versions of their documented contracts: an HMAC tag
is an opaque value determined by the signing key and the signed payload,
and a bcrypt digest is determined by the salt and the password and is
checked by re-derivation.
-/

/- ### String helpers

String.trim / toLowerCase / the validation regexes of the routes,
re-expressed over the character list so that they evaluate by kernel
reduction. -/

/-- Trim of leading and trailing whitespace, as performed by
JavaScript's `String.prototype.trim` on the request fields. -/
def strTrim (s : String) : String :=
  ⟨((s.data.dropWhile Char.isWhitespace).reverse.dropWhile Char.isWhitespace).reverse⟩

/-- Lower-casing, as performed by `String.prototype.toLowerCase` on
e-mail addresses (ASCII model). -/
def toLowerStr (s : String) : String :=
  ⟨s.data.map Char.toLower⟩

/-- Splitting a character list at every occurrence of a separator
character; used to model the e-mail regex of the auth routes. -/
def splitOnChar (c : Char) : List Char → List (List Char)
  | [] => [[]]
  | x :: xs =>
    let rest := splitOnChar c xs
    if x = c then [] :: rest
    else
      match rest with
      | [] => [[x]]
      | r :: rs => (x :: r) :: rs

/-- Characters admitted by the bracket expression of the e-mail regex:
anything but whitespace and the at-sign. -/
def emailAtomChar (c : Char) : Bool :=
  !c.isWhitespace && c != '@'

/-- The e-mail check of `src/routes/auth.ts`:
the regex `[^@ ]+ at [^@ ]+ dot [^@ ]+` anchored on both sides.  A string
matches iff it has exactly one at-sign, no whitespace, a nonempty part
before the at-sign, and a dot strictly inside the domain part. -/
def isEmail (s : String) : Bool :=
  match splitOnChar '@' s.data with
  | [u, dom] =>
    !u.isEmpty && u.all emailAtomChar &&
    !dom.isEmpty && dom.all emailAtomChar &&
    ((dom.drop 1).dropLast.contains '.')
  | _ => false

/-- The mobile-number check of `src/routes/auth.ts`: the regex
`\d` repeated 9 to 15 times, anchored. -/
def isDigits (s : String) : Bool :=
  s.data.all Char.isDigit && 9 ≤ s.data.length && s.data.length ≤ 15

/-- Mongo `Types.ObjectId.isValid` on a string: a 24-character
hexadecimal identifier (the canonical text form produced by the store). -/
def isHexChar (c : Char) : Bool :=
  c.isDigit || ('a' ≤ c && c ≤ 'f') || ('A' ≤ c && c ≤ 'F')

/-- The `isObjectId` helper of `src/routes/pools.ts`: the value is a
string and a syntactically valid Mongo identifier. -/
def isObjectId (s : String) : Bool :=
  s.data.length == 24 && s.data.all isHexChar

/- ### Result types -/

/-- Outcome of a route handler: a success response with a status code and
a typed body, or an error response with a status code and a message
(the single-field JSON error object of the routes). -/
inductive HResult (α : Type) where
  | success (status : Nat) (body : α)
  | failure (status : Nat) (message : String)
deriving DecidableEq

/- ### Token service (`src/config/auth.ts` over jsonwebtoken) -/

/-- The JWT claims produced by `signAccess`: subject, issued-at and
expiry (`expiresIn` is resolved against the issue time by the library). -/
structure JwtPayload where
  sub : String
  iat : Nat
  exp : Nat
deriving DecidableEq

/-- Idealized HMAC tag: an opaque value determined exactly by the signing
key and the signed payload, so two tags compare equal iff key and payload
agree.  This is the standard unforgeability idealization of the JWT
signature. -/
structure MacTag where
  key : String
  signedSub : String
  signedIat : Nat
  signedExp : Nat
deriving DecidableEq

/-- Tag computation over a payload with a server-held secret. -/
def macTag (secret : String) (p : JwtPayload) : MacTag :=
  ⟨secret, p.sub, p.iat, p.exp⟩

/-- A structurally well-formed signed token: payload plus signature tag. -/
structure Jwt where
  payload : JwtPayload
  tag : MacTag
deriving DecidableEq

/-- A token as transported on the wire: either not decodable as a JWT at
all, or a decodable payload-plus-signature pair (whose signature may
still be wrong). -/
inductive TokenWire where
  | malformed (raw : String)
  | signed (jwt : Jwt)
deriving DecidableEq

/-- The two failure kinds of `jwt.verify`: `JsonWebTokenError`
(malformed structure or bad signature) and `TokenExpiredError`. -/
inductive TokenError where
  | invalid
  | expired
deriving DecidableEq

/-- The `signAccess` function of `src/config/auth.ts`:
`jwt.sign(sub := userId, secret, expiresIn := TTL)`; the expiry is the
issue time plus the configured TTL. -/
def signAccess (secret : String) (iat ttl : Nat) (userId : String) : Jwt :=
  { payload := { sub := userId, iat := iat, exp := iat + ttl }
    tag := macTag secret { sub := userId, iat := iat, exp := iat + ttl } }

/-- The `verifyAccess` function of `src/config/auth.ts`, following
jsonwebtoken's order of checks: decode (failure kind `invalid`), check
the signature against the server secret (failure kind `invalid`), then
check expiry — expired when the clock has reached `exp` (failure kind
`expired`); otherwise return the payload. -/
def verifyAccess (secret : String) (now : Nat) : TokenWire → Except TokenError JwtPayload
  | .malformed _ => .error .invalid
  | .signed j =>
    if j.tag ≠ macTag secret j.payload then .error .invalid
    else if j.payload.exp ≤ now then .error .expired
    else .ok j.payload

/- ### Access-control middleware (`helpers/authRequired.ts`, final variant) -/

/-- The Authorization header as seen by the bearer gate: absent, present
but not of the shape `Bearer <token>` (the gate treats this like an
absent token), or a bearer token. -/
inductive AuthHeader where
  | absent
  | notBearer (raw : String)
  | bearer (tok : TokenWire)

/-- The `authRequired` middleware: no token yields 401 `AUTH_REQUIRED`
without consulting the token service; a present token is verified and
the failure kind is surfaced as a machine-readable code
(`TOKEN_EXPIRED` for `TokenExpiredError`, `TOKEN_INVALID` otherwise);
on success the resolved subject is attached to the request. -/
def authRequired (secret : String) (now : Nat) : AuthHeader → Except (Nat × String) String
  | .absent => .error (401, "AUTH_REQUIRED")
  | .notBearer _ => .error (401, "AUTH_REQUIRED")
  | .bearer tok =>
    match verifyAccess secret now tok with
    | .ok payload => .ok payload.sub
    | .error .expired => .error (401, "TOKEN_EXPIRED")
    | .error .invalid => .error (401, "TOKEN_INVALID")

/-- Outcome of the admin-secret gate. -/
inductive GateResult where
  | halt (status : Nat) (message : String)
  | allowed
deriving DecidableEq

/-- The `adminSecretRequired` middleware: the provided `x-admin-secret`
header (absent becomes the empty string) is compared to the configured
secret (`ENV.ADMIN_SECRET`, empty when unset).  An unset secret fails
closed with 500; the comparison is length-and-content equality
(`timingSafeEqual` after a length check); a mismatch yields 401. -/
def adminSecretRequired (adminSecret : String) (provided : Option String) : GateResult :=
  let prov := provided.getD ""
  let expected := adminSecret
  if expected == "" then .halt 500 "Server misconfigured"
  else if prov.length == expected.length && prov == expected then .allowed
  else .halt 401 "Unauthorized"

/- ### Listing store (`models/pool.ts`, final variant) -/

/-- The boolean filter sub-document of a listing. -/
structure Filters where
  heated : Bool
  petsAllowed : Bool
deriving DecidableEq

/-- A stored pool listing.  `visibleUntil = none` models both a missing
and a null `visibleUntil` (the Mongo filter `visibleUntil : null`
matches both).  `isVisible` defaults to `false` and `visibleUntil` to
`null` in the schema; `createdAt` comes from the schema timestamps. -/
structure Pool where
  id : String
  userId : String
  title : String
  city : String
  capacity : Nat
  images : List String
  pricePerDay : Option Nat
  description : Option String
  filters : Option Filters
  busyDays : Option (List String)
  isVisible : Bool
  visibleUntil : Option Nat
  createdAt : Nat
deriving DecidableEq

/-- The public-visibility predicate, exactly as it appears both as the
store-level filter of GET `/pools` and as the `isPublic` check of
GET `/pool`: visible, and either no expiry or an expiry not yet passed
(`visibleUntil` at or after `now`). -/
def isPubliclyVisible (p : Pool) (now : Nat) : Bool :=
  p.isVisible &&
    (match p.visibleUntil with
     | none => true
     | some t => now ≤ t)

/-- Ordering relation used by `sort(createdAt : -1)`: creation time
descending. -/
def createdDesc (a b : Pool) : Prop := b.createdAt ≤ a.createdAt

instance : DecidableRel createdDesc := fun a b => Nat.decLe b.createdAt a.createdAt

instance : IsTotal Pool createdDesc := ⟨fun a b => Nat.le_total b.createdAt a.createdAt⟩

instance : IsTrans Pool createdDesc := ⟨fun _ _ _ h1 h2 => Nat.le_trans h2 h1⟩

/-- The store-level sort `sort(createdAt : -1)` of the listing queries. -/
def sortByCreatedDesc (l : List Pool) : List Pool := l.insertionSort createdDesc

/-- Ownership filter of the listing query: `userId` equals the requested
owner identifier. -/
def ownedBy (uid : String) (p : Pool) : Bool := p.userId == uid

/-- Whether the GET `/pools` request carries a syntactically valid
`userId` query parameter: the parameter is a string (query values are
either strings or absent) and, after trimming, a valid ObjectId. -/
def hasValidUserIdQ (userIdQ : Option String) : Bool :=
  match userIdQ with
  | some s => isObjectId (strTrim s)
  | none => false

/-- The GET `/pools` query: when the `userId` parameter is a valid
identifier, all listings of that owner (visibility ignored); otherwise
the public-visibility filter — both pushed to the store and sorted by
creation time descending.  The final route variant additionally joins an
owner summary onto each returned listing, which does not change which
listings are returned. -/
def listPools (db : List Pool) (userIdQ : Option String) (now : Nat) : List Pool :=
  if hasValidUserIdQ userIdQ then
    sortByCreatedDesc (db.filter (ownedBy (strTrim (userIdQ.getD ""))))
  else
    sortByCreatedDesc (db.filter (fun p => isPubliclyVisible p now))

/-- The full GET `/pools` handler: it unconditionally answers 200 with
the query result — there is no error branch. -/
def listPoolsHandler (db : List Pool) (userIdQ : Option String) (now : Nat) :
    HResult (List Pool) :=
  .success 200 (listPools db userIdQ now)

/-- The GET `/pool` handler (owner-preview variant): 400 on an invalid
id, 404 when the id matches nothing; otherwise the caller is the owner
when a presented bearer token verifies to the listing's owner (any
verification failure is swallowed and treated as not-owner), and the
listing is returned when the caller is the owner or the listing is
publicly visible, else 404.  The owner-summary decoration of the
response body is omitted; it does not affect which listing is
returned. -/
def getPool (db : List Pool) (idQ : Option String) (authToken : Option TokenWire)
    (secret : String) (now : Nat) : HResult Pool :=
  let id := strTrim (idQ.getD "")
  if !isObjectId id then .failure 400 "Invalid id"
  else
    match db.find? (fun p => p.id == id) with
    | none => .failure 404 "Pool not found"
    | some pool =>
      let isOwner :=
        match authToken with
        | none => false
        | some tok =>
          match verifyAccess secret now tok with
          | .ok payload => payload.sub == pool.userId
          | .error _ => false
      if isOwner then .success 200 pool
      else if isPubliclyVisible pool now then .success 200 pool
      else .failure 404 "Pool not found"

/- ### Owner-scoped and admin mutations on the listing store -/

/-- Match condition of the owner-scoped atomic operations: both the
listing identifier and the caller identity as owner, in one condition. -/
def poolMatches (pid uid : String) (p : Pool) : Bool :=
  p.id == pid && p.userId == uid

/-- Mongo `findOneAndDelete`: one atomic pass that removes the first
document matching the condition and returns it; a non-matching pass
leaves the store untouched and returns nothing. -/
def findOneAndDelete (pred : Pool → Bool) : List Pool → Option Pool × List Pool
  | [] => (none, [])
  | p :: rest =>
    if pred p then (some p, rest)
    else
      let r := findOneAndDelete pred rest
      (r.1, p :: r.2)

/-- Mongo `findOneAndUpdate` with `new : true`: one atomic pass that
rewrites the first document matching the condition and returns the
updated document; a non-matching pass leaves the store untouched. -/
def findOneAndUpdate (pred : Pool → Bool) (f : Pool → Pool) :
    List Pool → Option Pool × List Pool
  | [] => (none, [])
  | p :: rest =>
    if pred p then (some (f p), f p :: rest)
    else
      let r := findOneAndUpdate pred f rest
      (r.1, p :: r.2)

/-- The DELETE `/pools/:id` handler: 400 on an invalid id, otherwise one
`findOneAndDelete` whose condition carries both the id and the
authenticated caller as owner; no match is reported as 404, a match as
204. -/
def deletePool (db : List Pool) (authUserId : String) (idParam : String) :
    HResult Unit × List Pool :=
  if !isObjectId idParam then (.failure 400 "Invalid id", db)
  else
    let r := findOneAndDelete (poolMatches idParam authUserId) db
    (match r.1 with
     | none => .failure 404 "Pool not found"
     | some _ => .success 204 (), r.2)

/-- The parsed request body of POST `/pools` and PUT `/pools/:id` after
the extraction block of the handler (strings coerced and trimmed,
numbers coerced, arrays checked).  The body carries no visibility
fields: the handlers never read `isVisible` or `visibleUntil` from the
request. -/
structure PoolInput where
  title : String
  city : String
  capacity : Nat
  images : List String
  pricePerDay : Option Nat
  description : Option String
  filters : Option Filters
  busyDays : Option (List String)
deriving DecidableEq

/-- The validation block of PUT `/pools/:id`: title 3..40, nonempty
city, capacity 1..100, images 1..7, optional price 1..10000, optional
description length 1..300. -/
def poolInputValid (i : PoolInput) : Bool :=
  3 ≤ i.title.length && i.title.length ≤ 40 &&
  i.city != "" &&
  (1 ≤ i.capacity && i.capacity ≤ 100) &&
  (1 ≤ i.images.length && i.images.length ≤ 7) &&
  (match i.pricePerDay with
   | none => true
   | some x => 1 ≤ x && x ≤ 10000) &&
  (match i.description with
   | none => true
   | some d => 1 ≤ d.length && d.length ≤ 300)

/-- The update document of PUT `/pools/:id`: a `$set` on title, city,
capacity, images and filters, and a `$set`-or-`$unset` on price,
description and busy days.  The update never mentions `isVisible` or
`visibleUntil`. -/
def applyPoolUpdate (i : PoolInput) (p : Pool) : Pool :=
  { p with
    title := i.title
    city := i.city
    capacity := i.capacity
    images := i.images
    filters := i.filters
    pricePerDay := i.pricePerDay
    description := i.description
    busyDays := i.busyDays }

/-- The PUT `/pools/:id` handler: 400 on an invalid id or invalid body,
otherwise one `findOneAndUpdate` whose condition carries both the id and
the authenticated caller as owner; no match is reported as 404, a match
as 200 with the updated listing. -/
def updatePool (db : List Pool) (authUserId : String) (idParam : String)
    (input : PoolInput) : HResult Pool × List Pool :=
  if !isObjectId idParam then (.failure 400 "Invalid id", db)
  else if !poolInputValid input then (.failure 400 "Invalid pool data", db)
  else
    let r := findOneAndUpdate (poolMatches idParam authUserId) (applyPoolUpdate input) db
    (match r.1 with
     | none => .failure 404 "Pool not found"
     | some updated => .success 200 updated, r.2)

/-- The POST `/pools` handler (final variant): images are filtered to
nonempty strings, the body is validated (title 3..40, nonempty city,
capacity 1..100, filtered images 1..7), and the document is created with
the authenticated caller as owner.  The create call passes no visibility
fields, so the schema defaults apply: `isVisible = false` and
`visibleUntil = null`; client-supplied visibility fields are never
read. -/
def createPool (db : List Pool) (authUserId : String) (input : PoolInput)
    (freshId : String) (now : Nat) : HResult Pool × List Pool :=
  let images := input.images.filter (fun u => strTrim u != "")
  let valid :=
    3 ≤ input.title.length && input.title.length ≤ 40 &&
    input.city != "" &&
    (1 ≤ input.capacity && input.capacity ≤ 100) &&
    (1 ≤ images.length && images.length ≤ 7)
  if !valid then (.failure 400 "Invalid pool data", db)
  else
    let created : Pool :=
      { id := freshId
        userId := authUserId
        title := input.title
        city := input.city
        capacity := input.capacity
        images := images
        pricePerDay := input.pricePerDay
        description := input.description
        filters := input.filters
        busyDays := input.busyDays
        isVisible := false
        visibleUntil := none
        createdAt := now }
    (.success 201 created, db ++ [created])

/-- The PUT `/pools/:id/visibility` handler (admin-secret gated): 400 on
an invalid id; a malformed `visibleUntil` date never reaches the update
(it is rejected as 400 at parse time), so the update input is an
already-parsed optional timestamp; then one `findByIdAndUpdate` setting
`isVisible` to the request flag and `visibleUntil` to the parsed
timestamp when the flag is true and to `null` when it is false. -/
def setPoolVisibility (db : List Pool) (idParam : String) (isVisibleReq : Bool)
    (visibleUntilReq : Option Nat) : HResult Pool × List Pool :=
  if !isObjectId idParam then (.failure 400 "Invalid id", db)
  else
    let f := fun p : Pool =>
      { p with
        isVisible := isVisibleReq
        visibleUntil := if isVisibleReq then visibleUntilReq else none }
    let r := findOneAndUpdate (fun p => p.id == idParam) f db
    (match r.1 with
     | none => .failure 404 "Pool not found"
     | some updated => .success 200 updated, r.2)

/-- One state transition of the listing store: any one of the mutating
endpoints applied with arbitrary (caller, id, body) inputs. -/
inductive PoolStep : List Pool → List Pool → Prop where
  | create (db : List Pool) (uid : String) (input : PoolInput) (fid : String) (now : Nat) :
      PoolStep db (createPool db uid input fid now).2
  | visibility (db : List Pool) (pid : String) (v : Bool) (vu : Option Nat) :
      PoolStep db (setPoolVisibility db pid v vu).2
  | ownerUpdate (db : List Pool) (uid pid : String) (input : PoolInput) :
      PoolStep db (updatePool db uid pid input).2
  | ownerDelete (db : List Pool) (uid pid : String) :
      PoolStep db (deletePool db uid pid).2

/-- A listing store reachable from the empty store through the mutating
endpoints. -/
def PoolReachable (db : List Pool) : Prop :=
  Relation.ReflTransGen PoolStep [] db

/-- The implicit visibility invariant: an invisible listing never
carries an expiry timestamp. -/
def VisInv (p : Pool) : Prop :=
  p.isVisible = false → p.visibleUntil = none

/- ### Credential store and user serialization (`models/user.ts`, final variant) -/

/-- A stored user document.  The schema paths are exactly these: the
password-reset flow writes `resetPasswordToken` through an untyped cast
onto a strict-mode document, so the token is not a schema path and never
becomes part of the persisted or serialized document. -/
structure UserRec where
  mongoId : String
  firstName : String
  lastName : String
  email : String
  mobileNumber : String
  passwordHash : String
  avatarUrl : Option String
  createdAt : Nat
  updatedAt : Nat
deriving DecidableEq

/-- Deleting a key from a serialized JSON object, as the schema
transform's `delete` statements do. -/
def deleteKey (k : String) (m : List (String × String)) : List (String × String) :=
  m.filter (fun kv => kv.1 != k)

/-- The raw document as Mongo serializes it before the transform: the
schema paths plus `_id` and the timestamp fields (`__v` is dropped by
`versionKey : false`). -/
def userDoc (u : UserRec) : List (String × String) :=
  [("_id", u.mongoId), ("firstName", u.firstName), ("lastName", u.lastName),
   ("email", u.email), ("mobileNumber", u.mobileNumber),
   ("passwordHash", u.passwordHash)] ++
  (match u.avatarUrl with
   | some a => [("avatarUrl", a)]
   | none => []) ++
  [("createdAt", Nat.repr u.createdAt), ("updatedAt", Nat.repr u.updatedAt)]

/-- The `toObject` / `toJSON` transform of the user schema: set
`id := String(_id)`, delete `_id`, delete `passwordHash`. -/
def userToObject (u : UserRec) : List (String × String) :=
  ("id", u.mongoId) :: deleteKey "passwordHash" (deleteKey "_id" (userDoc u))

/-- Idealized bcrypt `hash`: a digest determined by the per-call random
salt and the password. -/
def hashPassword (salt : Nat) (pw : String) : String :=
  Nat.repr salt ++ "$" ++ pw

/-- Idealized bcrypt `compare`: re-derive the digest from its salt part
and the candidate password; a malformed digest simply compares false. -/
def verifyPassword (pw digest : String) : Bool :=
  digest == String.mk (digest.data.takeWhile (fun c => c != '$')) ++ "$" ++ pw

/-- Ordering relation for the admin user listing `sort(createdAt : -1)`. -/
def userCreatedDesc (a b : UserRec) : Prop := b.createdAt ≤ a.createdAt

instance : DecidableRel userCreatedDesc := fun a b => Nat.decLe b.createdAt a.createdAt

instance : IsTotal UserRec userCreatedDesc := ⟨fun a b => Nat.le_total b.createdAt a.createdAt⟩

instance : IsTrans UserRec userCreatedDesc := ⟨fun _ _ _ h1 h2 => Nat.le_trans h2 h1⟩

/-- The GET `/admin/users` handler body (behind the admin-secret gate):
every user, creation time descending, serialized through the schema
transform. -/
def adminListUsers (users : List UserRec) : List (List (String × String)) :=
  (users.insertionSort userCreatedDesc).map userToObject

/-- Success or failure of the register and login routes: the success
body is the serialized user object plus the signed access token. -/
inductive AuthResult where
  | ok (status : Nat) (user : List (String × String)) (accessToken : Jwt)
  | fail (status : Nat) (message : String)
deriving DecidableEq

/-- The POST `/auth/login` handler (final variant): trim and lower-case
the e-mail; a malformed e-mail or out-of-range password length, an
unknown e-mail, and a failing password check all answer the same
401 `Invalid credentials`; on success the user is serialized through the
schema transform, decorated with a published-pools count, and returned
with a fresh access token. -/
def loginUser (users : List UserRec) (pools : List Pool) (secret : String)
    (iat ttl : Nat) (emailIn passwordIn : String) : AuthResult :=
  let email := toLowerStr (strTrim emailIn)
  let passOk := 6 ≤ passwordIn.length && passwordIn.length ≤ 25
  if !(isEmail email && passOk) then .fail 401 "Invalid credentials"
  else
    match users.find? (fun u => u.email == email) with
    | none => .fail 401 "Invalid credentials"
    | some user =>
      if !verifyPassword passwordIn user.passwordHash then .fail 401 "Invalid credentials"
      else
        let accessToken := signAccess secret iat ttl user.mongoId
        let count := (pools.filter (fun p => p.userId == user.mongoId)).length
        .ok 200 (userToObject user ++ [("publishedPoolsCount", Nat.repr count)]) accessToken

/-- The POST `/auth/register` handler (final variant): validate the
trimmed fields, reject an already-used e-mail with 409, hash the
password, create the user, and answer 201 with the serialized user (plus
published-pools count) and a fresh token. -/
def registerUser (users : List UserRec) (pools : List Pool) (secret : String)
    (freshId : String) (salt iat ttl now : Nat)
    (firstNameIn lastNameIn emailIn mobileIn passwordIn : String) :
    AuthResult × List UserRec :=
  let firstName := strTrim firstNameIn
  let lastName := strTrim lastNameIn
  let email := toLowerStr (strTrim emailIn)
  let mobileNumber := strTrim mobileIn
  let passOk := 6 ≤ passwordIn.length && passwordIn.length ≤ 25
  if !(firstName != "" && lastName != "" && isEmail email && isDigits mobileNumber && passOk)
  then (.fail 400 "Invalid data", users)
  else if (users.find? (fun u => u.email == email)).isSome then (.fail 409 "Email", users)
  else
    let created : UserRec :=
      { mongoId := freshId
        firstName := firstName
        lastName := lastName
        email := email
        mobileNumber := mobileNumber
        passwordHash := hashPassword salt passwordIn
        avatarUrl := none
        createdAt := now
        updatedAt := now }
    let accessToken := signAccess secret iat ttl freshId
    let count := (pools.filter (fun p => p.userId == freshId)).length
    (.ok 201 (userToObject created ++ [("publishedPoolsCount", Nat.repr count)]) accessToken,
     users ++ [created])

/-- The `avatarUrl` body field of PUT `/user`: a string, an explicit
null, or absent. -/
inductive AvatarIn where
  | strVal (s : String)
  | nullVal
  | absent

/-- The optional password-change sub-object of PUT `/user`. -/
structure PasswordChangeIn where
  currentPassword : String
  newPassword : String

/-- Field assignment performed by PUT `/user` before `save`: profile
fields replaced, the password hash replaced only when a password change
was validated, the avatar kept on an absent field and cleared on null or
an empty trimmed string. -/
def applyProfile (user : UserRec) (firstName lastName email mobileNumber : String)
    (avatarIn : AvatarIn) (newHash : Option String) (now : Nat) : UserRec :=
  { user with
    firstName := firstName
    lastName := lastName
    email := email
    mobileNumber := mobileNumber
    passwordHash := newHash.getD user.passwordHash
    avatarUrl :=
      match avatarIn with
      | .absent => user.avatarUrl
      | .nullVal => none
      | .strVal s => if strTrim s == "" then none else some (strTrim s)
    updatedAt := now }

/-- The save-and-respond tail of PUT `/user`: apply the profile fields
and the optional new password hash to the looked-up user, persist the
document by its identity, and answer 200 with the serialized user. -/
def saveSelf (users : List UserRec) (userId : String) (user : UserRec)
    (firstName lastName email mobileNumber : String) (avatarIn : AvatarIn)
    (newHash : Option String) (now : Nat) :
    HResult (List (String × String)) × List UserRec :=
  let updated := applyProfile user firstName lastName email mobileNumber avatarIn newHash now
  (.success 200 (userToObject updated),
   users.map (fun u => if u.mongoId == userId then updated else u))

/-- The PUT `/user` self-update handler (final variant): validate the
trimmed profile fields, look the caller up by identity, enforce e-mail
uniqueness on a change, optionally validate and apply a password change
(wrong current password answers 401), then save and answer 200 with the
serialized user. -/
def updateSelf (users : List UserRec) (userId : String) (salt now : Nat)
    (firstNameIn lastNameIn emailIn mobileIn : String)
    (avatarIn : AvatarIn) (passwordChange : Option PasswordChangeIn) :
    HResult (List (String × String)) × List UserRec :=
  let firstName := strTrim firstNameIn
  let lastName := strTrim lastNameIn
  let email := toLowerStr (strTrim emailIn)
  let mobileNumber := strTrim mobileIn
  if !(firstName != "" && lastName != "" && isEmail email && isDigits mobileNumber) then
    (.failure 400 "Invalid data", users)
  else
    match users.find? (fun u => u.mongoId == userId) with
    | none => (.failure 404 "User not found", users)
    | some user =>
      if email != user.email && (users.find? (fun u => u.email == email)).isSome then
        (.failure 409 "Email", users)
      else
        match passwordChange with
        | none => saveSelf users userId user firstName lastName email mobileNumber avatarIn none now
        | some pc =>
          let newLenOk := 6 ≤ pc.newPassword.length && pc.newPassword.length ≤ 25
          if pc.currentPassword == "" || pc.newPassword == "" || !newLenOk then
            (.failure 400 "Invalid password change", users)
          else if !verifyPassword pc.currentPassword user.passwordHash then
            (.failure 401 "Current password incorrect", users)
          else
            saveSelf users userId user firstName lastName email mobileNumber avatarIn
              (some (hashPassword salt pc.newPassword)) now

/-- A serialized object free of credential material: no password-hash
key and no password-reset-token key. -/
def NoSecretKeys (body : List (String × String)) : Prop :=
  ∀ kv ∈ body, kv.1 ≠ "passwordHash" ∧ kv.1 ≠ "resetPasswordToken"

/- ### Shared lemmas about the store primitives -/

/-- Membership is invariant under the creation-time sort. -/
theorem mem_sortByCreatedDesc (l : List Pool) (p : Pool) :
    p ∈ sortByCreatedDesc l ↔ p ∈ l :=
  (List.perm_insertionSort createdDesc l).mem_iff

/-- The creation-time sort is a permutation of its input. -/
theorem perm_sortByCreatedDesc (l : List Pool) :
    (sortByCreatedDesc l).Perm l :=
  List.perm_insertionSort createdDesc l

/-- The creation-time sort is sorted by creation time descending. -/
theorem sorted_sortByCreatedDesc (l : List Pool) :
    List.Sorted createdDesc (sortByCreatedDesc l) :=
  List.sorted_insertionSort createdDesc l

/-- In a store with pairwise-distinct identifiers, the lookup by a
member's identifier finds exactly that member. -/
theorem find_by_id_of_nodup (db : List Pool) (p : Pool)
    (hnd : (db.map Pool.id).Nodup) (hp : p ∈ db) :
    db.find? (fun q => q.id == p.id) = some p := by
  induction db with
  | nil => simp at hp
  | cons q rest ih =>
    rw [List.map_cons, List.nodup_cons] at hnd
    rcases List.mem_cons.mp hp with rfl | hp2
    · rw [List.find?_cons_of_pos _ (by simp)]
    · have hq : ¬ (q.id = p.id) := fun he =>
        hnd.1 (he ▸ List.mem_map_of_mem Pool.id hp2)
      rw [List.find?_cons_of_neg _ (by simp [hq])]
      exact ih hnd.2 hp2

/-- A pass of `findOneAndDelete` over a store with no matching document
returns nothing and leaves the store unchanged. -/
theorem findOneAndDelete_none (pred : Pool → Bool) (db : List Pool)
    (h : ∀ q ∈ db, pred q = false) : findOneAndDelete pred db = (none, db) := by
  induction db with
  | nil => rfl
  | cons q rest ih =>
    have ht := ih (fun x hx => h x (List.mem_cons_of_mem q hx))
    simp [findOneAndDelete, h q (List.mem_cons_self q rest), ht]

/-- A pass of `findOneAndUpdate` over a store with no matching document
returns nothing and leaves the store unchanged. -/
theorem findOneAndUpdate_none (pred : Pool → Bool) (f : Pool → Pool) (db : List Pool)
    (h : ∀ q ∈ db, pred q = false) : findOneAndUpdate pred f db = (none, db) := by
  induction db with
  | nil => rfl
  | cons q rest ih =>
    have ht := ih (fun x hx => h x (List.mem_cons_of_mem q hx))
    simp [findOneAndUpdate, h q (List.mem_cons_self q rest), ht]

/-- The document removed by `findOneAndDelete` satisfies the match
condition. -/
theorem findOneAndDelete_matched (pred : Pool → Bool) (db : List Pool) (q : Pool)
    (h : (findOneAndDelete pred db).1 = some q) : pred q = true := by
  induction db with
  | nil => simp [findOneAndDelete] at h
  | cons x rest ih =>
    by_cases hx : pred x
    · simp [findOneAndDelete, hx] at h
      exact h ▸ hx
    · simp [findOneAndDelete, hx] at h
      exact ih h

/-- The document returned by `findOneAndUpdate` is the update applied to
a stored document satisfying the match condition. -/
theorem findOneAndUpdate_matched (pred : Pool → Bool) (f : Pool → Pool) (db : List Pool)
    (q : Pool) (h : (findOneAndUpdate pred f db).1 = some q) :
    ∃ x, x ∈ db ∧ pred x = true ∧ q = f x := by
  induction db with
  | nil => simp [findOneAndUpdate] at h
  | cons x rest ih =>
    by_cases hx : pred x
    · simp [findOneAndUpdate, hx] at h
      exact ⟨x, List.mem_cons_self x rest, hx, h.symm⟩
    · simp [findOneAndUpdate, hx] at h
      obtain ⟨y, hy, hpy, hq⟩ := ih h
      exact ⟨y, List.mem_cons_of_mem x hy, hpy, hq⟩

/-- The store left by `findOneAndDelete` is a sub-collection of the
input store. -/
theorem findOneAndDelete_subset (pred : Pool → Bool) (db : List Pool) :
    ∀ q ∈ (findOneAndDelete pred db).2, q ∈ db := by
  induction db with
  | nil => simp [findOneAndDelete]
  | cons x rest ih =>
    intro q hq
    by_cases hx : pred x
    · simp [findOneAndDelete, hx] at hq
      exact List.mem_cons_of_mem x hq
    · simp [findOneAndDelete, hx] at hq
      rcases hq with rfl | hq2
      · exact List.mem_cons_self q rest
      · exact List.mem_cons_of_mem x (ih q hq2)

/-- Every document in the store left by `findOneAndUpdate` is either an
untouched stored document or the update applied to a stored document. -/
theorem findOneAndUpdate_mem (pred : Pool → Bool) (f : Pool → Pool) (db : List Pool) :
    ∀ q ∈ (findOneAndUpdate pred f db).2, q ∈ db ∨ ∃ x, x ∈ db ∧ q = f x := by
  induction db with
  | nil => simp [findOneAndUpdate]
  | cons x rest ih =>
    intro q hq
    by_cases hx : pred x
    · simp [findOneAndUpdate, hx] at hq
      rcases hq with rfl | hq2
      · exact Or.inr ⟨x, List.mem_cons_self x rest, rfl⟩
      · exact Or.inl (List.mem_cons_of_mem x hq2)
    · simp [findOneAndUpdate, hx] at hq
      rcases hq with rfl | hq2
      · exact Or.inl (List.mem_cons_self q rest)
      · rcases ih q hq2 with h1 | ⟨y, hy, hfy⟩
        · exact Or.inl (List.mem_cons_of_mem x h1)
        · exact Or.inr ⟨y, List.mem_cons_of_mem x hy, hfy⟩

/- ### Token service and middleware claims -/

/-- C5: verifying a token freshly issued for a user identity, at any
time strictly before its expiry (issue time plus TTL), succeeds and
yields the payload whose subject is that identity. -/
theorem token_round_trip (secret uid : String) (iat ttl now : Nat)
    (hfresh : now < iat + ttl) :
    verifyAccess secret now (.signed (signAccess secret iat ttl uid)) =
      .ok { sub := uid, iat := iat, exp := iat + ttl } := by
  have h2 : ¬ (iat + ttl ≤ now) := by omega
  simp [verifyAccess, signAccess, macTag, h2]

/-- Witness for C5 at a concrete identity, issue time and clock. -/
theorem token_round_trip_witness :
    (3 : Nat) < 0 + 7 ∧
      verifyAccess "server-secret" 3 (.signed (signAccess "server-secret" 0 7 "665c1a2f7a2f0a3f9b6d1a10")) =
        .ok { sub := "665c1a2f7a2f0a3f9b6d1a10", iat := 0, exp := 0 + 7 } :=
  ⟨by decide, token_round_trip "server-secret" "665c1a2f7a2f0a3f9b6d1a10" 0 7 3 (by decide)⟩

/-- C6: verification failures are distinguishable by kind — a malformed
token or a wrong signature fails with the invalid kind; a well-formed,
correctly signed token checked at or after its expiry fails with the
expired kind, never the invalid kind; and the bearer gate surfaces the
distinction as a machine-readable code next to the 401. -/
theorem token_failure_kinds :
    (∀ secret raw (now : Nat), verifyAccess secret now (.malformed raw) = .error .invalid) ∧
    (∀ secret (now : Nat) (j : Jwt), j.tag ≠ macTag secret j.payload →
      verifyAccess secret now (.signed j) = .error .invalid) ∧
    (∀ secret uid (iat ttl now : Nat), iat + ttl ≤ now →
      verifyAccess secret now (.signed (signAccess secret iat ttl uid)) = .error .expired) ∧
    (∀ secret (now : Nat) (tok : TokenWire), verifyAccess secret now tok = .error .expired →
      authRequired secret now (.bearer tok) = .error (401, "TOKEN_EXPIRED")) ∧
    (∀ secret (now : Nat) (tok : TokenWire), verifyAccess secret now tok = .error .invalid →
      authRequired secret now (.bearer tok) = .error (401, "TOKEN_INVALID")) := by
  refine ⟨fun _ _ _ => rfl, ?_, ?_, ?_, ?_⟩
  · intro secret now j h
    simp [verifyAccess, h]
  · intro secret uid iat ttl now h
    simp [verifyAccess, signAccess, macTag, h]
  · intro secret now tok h
    simp [authRequired, h]
  · intro secret now tok h
    simp [authRequired, h]

/-- Witness for C6: a concrete expired token fails with the expired
kind and surfaces the expiry code; a concrete malformed token surfaces
the invalid code. -/
theorem token_failure_kinds_witness :
    verifyAccess "s" 9 (.signed (signAccess "s" 1 8 "u-1")) = .error .expired ∧
    authRequired "s" 9 (.bearer (.signed (signAccess "s" 1 8 "u-1"))) =
      .error (401, "TOKEN_EXPIRED") ∧
    authRequired "s" 0 (.bearer (.malformed "not-a-jwt")) = .error (401, "TOKEN_INVALID") :=
  ⟨token_failure_kinds.2.2.1 "s" "u-1" 1 8 9 (by decide),
   token_failure_kinds.2.2.2.1 "s" 9 _ (token_failure_kinds.2.2.1 "s" "u-1" 1 8 9 (by decide)),
   token_failure_kinds.2.2.2.2 "s" 0 _ (token_failure_kinds.1 "s" "not-a-jwt" 0)⟩

/-- C7: the admin-secret gate fails closed — with no configured secret
every request is answered with the 500 misconfiguration error; with a
configured secret any non-equal header value is answered with 401; and
the gate lets a request through only on an exact match with a nonempty
configured secret. -/
theorem admin_gate_fails_closed :
    (∀ provided, adminSecretRequired "" provided = .halt 500 "Server misconfigured") ∧
    (∀ cfg provided, cfg ≠ "" → provided.getD "" ≠ cfg →
      adminSecretRequired cfg provided = .halt 401 "Unauthorized") ∧
    (∀ cfg provided, adminSecretRequired cfg provided = .allowed →
      cfg ≠ "" ∧ provided.getD "" = cfg) := by
  refine ⟨fun provided => by simp [adminSecretRequired], ?_, ?_⟩
  · intro cfg provided hcfg hne
    simp [adminSecretRequired, hcfg, hne]
  · intro cfg provided h
    unfold adminSecretRequired at h
    by_cases hcfg : cfg = ""
    · simp [hcfg] at h
    · refine ⟨hcfg, ?_⟩
      by_cases heq : provided.getD "" = cfg
      · exact heq
      · simp [hcfg, heq] at h

/-- Witness for C7: an unset secret answers 500 whatever is provided,
and a wrong provided value against a configured secret answers 401. -/
theorem admin_gate_fails_closed_witness :
    adminSecretRequired "" (some "any-guess") = .halt 500 "Server misconfigured" ∧
    adminSecretRequired "real-admin-secret" (some "wrong-guess") = .halt 401 "Unauthorized" :=
  ⟨admin_gate_fails_closed.1 (some "any-guess"),
   admin_gate_fails_closed.2.1 "real-admin-secret" (some "wrong-guess") (by decide) (by decide)⟩

/- ### Listing visibility claims -/

/-- Unfolding of the public-visibility predicate into the spec's reading. -/
theorem isPubliclyVisible_iff (p : Pool) (now : Nat) :
    isPubliclyVisible p now = true ↔
      (p.isVisible = true ∧
        (p.visibleUntil = none ∨ ∃ t, p.visibleUntil = some t ∧ now ≤ t)) := by
  unfold isPubliclyVisible
  cases h : p.visibleUntil <;> simp [h]

/-- C1: with no valid owner filter, the public listing query returns a
stored listing iff it is visible and unexpired; in particular an
invisible listing is never returned regardless of its expiry field, a
visible listing without expiry is always returned, a visible listing
with a past expiry is excluded and one with a future (or current)
expiry is included. -/
theorem public_listing_query (db : List Pool) (p : Pool) (userIdQ : Option String)
    (now : Nat) (hq : hasValidUserIdQ userIdQ = false) (hp : p ∈ db) :
    (p ∈ listPools db userIdQ now ↔
      (p.isVisible = true ∧
        (p.visibleUntil = none ∨ ∃ t, p.visibleUntil = some t ∧ now ≤ t))) ∧
    (p.isVisible = false → p ∉ listPools db userIdQ now) ∧
    (p.isVisible = true → p.visibleUntil = none → p ∈ listPools db userIdQ now) ∧
    (∀ t, p.visibleUntil = some t → t < now → p ∉ listPools db userIdQ now) ∧
    (∀ t, p.isVisible = true → p.visibleUntil = some t → now ≤ t →
      p ∈ listPools db userIdQ now) := by
  have hmain : p ∈ listPools db userIdQ now ↔ isPubliclyVisible p now = true := by
    unfold listPools
    rw [hq]
    simp [mem_sortByCreatedDesc, List.mem_filter, hp]
  have hiff := hmain.trans (isPubliclyVisible_iff p now)
  refine ⟨hiff, ?_, ?_, ?_, ?_⟩
  · intro hinv hmem
    exact absurd (hiff.mp hmem).1 (by simp [hinv])
  · intro hv hnone
    exact hiff.mpr ⟨hv, Or.inl hnone⟩
  · intro t ht hpast hmem
    rcases (hiff.mp hmem).2 with h1 | ⟨t2, ht2, hle⟩
    · exact (Option.some_ne_none t (ht ▸ h1)).elim
    · rw [ht] at ht2
      cases Option.some.injEq t2 t ▸ ht2.symm
      omega
  · intro t hv ht hle
    exact hiff.mpr ⟨hv, Or.inr ⟨t, ht, hle⟩⟩

/-- Witness for C1: a concrete visible, never-expiring listing is a
member of the public listing result. -/
theorem public_listing_query_witness :
    (⟨"665c1a2f7a2f0a3f9b6d1a11", "665c1a2f7a2f0a3f9b6d1a10", "Vila Sunce", "Mostar",
       8, ["https://example.com/pool.jpg"], none, none, none, none, true, none, 5⟩ : Pool) ∈
      listPools
        [⟨"665c1a2f7a2f0a3f9b6d1a11", "665c1a2f7a2f0a3f9b6d1a10", "Vila Sunce", "Mostar",
           8, ["https://example.com/pool.jpg"], none, none, none, none, true, none, 5⟩]
        none 9 :=
  (public_listing_query _ _ none 9 (by decide) (by decide)).2.2.1 rfl rfl

/-- C3: when the owner filter is a syntactically valid identifier the
query answers exactly the owner's listings (visibility ignored) sorted
by creation time descending; otherwise it answers exactly the publicly
visible listings sorted the same way; and the handler never answers an
error — every request gets a 200. -/
theorem listing_filter_contract (db : List Pool) (userIdQ : Option String)
    (s : String) (now : Nat) :
    (userIdQ = some s → isObjectId (strTrim s) = true →
      (listPools db userIdQ now).Perm (db.filter (ownedBy (strTrim s))) ∧
      List.Sorted createdDesc (listPools db userIdQ now)) ∧
    (hasValidUserIdQ userIdQ = false →
      (listPools db userIdQ now).Perm
        (db.filter (fun p => isPubliclyVisible p now)) ∧
      List.Sorted createdDesc (listPools db userIdQ now)) ∧
    listPoolsHandler db userIdQ now = .success 200 (listPools db userIdQ now) := by
  refine ⟨?_, ?_, rfl⟩
  · intro hq hvalid
    subst hq
    have hvq : hasValidUserIdQ (some s) = true := by
      simpa [hasValidUserIdQ] using hvalid
    unfold listPools
    rw [hvq]
    simp only [if_true, Option.getD_some]
    exact ⟨perm_sortByCreatedDesc _, sorted_sortByCreatedDesc _⟩
  · intro hq
    unfold listPools
    rw [hq]
    simp only [Bool.false_eq_true, if_false]
    exact ⟨perm_sortByCreatedDesc _, sorted_sortByCreatedDesc _⟩

/-- Witness for C3: a concrete owner-scoped query over a two-listing
store (one of them invisible) is a permutation of the owner filter and
sorted; the concrete result can be computed. -/
theorem listing_filter_contract_witness :
    (listPools
        [⟨"665c1a2f7a2f0a3f9b6d1a11", "665c1a2f7a2f0a3f9b6d1a10", "Vila Sunce", "Mostar",
           8, ["https://example.com/pool.jpg"], none, none, none, none, true, none, 5⟩,
         ⟨"665c1a2f7a2f0a3f9b6d1a12", "665c1a2f7a2f0a3f9b6d1a10", "Stari Most", "Mostar",
           4, ["https://example.com/2.jpg"], none, none, none, none, false, none, 7⟩]
        (some "665c1a2f7a2f0a3f9b6d1a10") 9).Perm
      ([⟨"665c1a2f7a2f0a3f9b6d1a11", "665c1a2f7a2f0a3f9b6d1a10", "Vila Sunce", "Mostar",
           8, ["https://example.com/pool.jpg"], none, none, none, none, true, none, 5⟩,
         ⟨"665c1a2f7a2f0a3f9b6d1a12", "665c1a2f7a2f0a3f9b6d1a10", "Stari Most", "Mostar",
           4, ["https://example.com/2.jpg"], none, none, none, none, false, none, 7⟩].filter
        (ownedBy (strTrim "665c1a2f7a2f0a3f9b6d1a10"))) ∧
    List.Sorted createdDesc
      (listPools
        [⟨"665c1a2f7a2f0a3f9b6d1a11", "665c1a2f7a2f0a3f9b6d1a10", "Vila Sunce", "Mostar",
           8, ["https://example.com/pool.jpg"], none, none, none, none, true, none, 5⟩,
         ⟨"665c1a2f7a2f0a3f9b6d1a12", "665c1a2f7a2f0a3f9b6d1a10", "Stari Most", "Mostar",
           4, ["https://example.com/2.jpg"], none, none, none, none, false, none, 7⟩]
        (some "665c1a2f7a2f0a3f9b6d1a10") 9) :=
  (listing_filter_contract _ (some "665c1a2f7a2f0a3f9b6d1a10")
    "665c1a2f7a2f0a3f9b6d1a10" 9).1 rfl (by decide)

/-- Evaluation of the single-item handler on a well-formed id that is
present in the store: the response is decided by the owner check and the
public-visibility check. -/
theorem getPool_eval (db : List Pool) (p : Pool) (auth : Option TokenWire)
    (secret : String) (now : Nat)
    (hid : isObjectId p.id = true) (htrim : strTrim p.id = p.id)
    (hfind : db.find? (fun q => q.id == p.id) = some p) :
    getPool db (some p.id) auth secret now =
      if (match auth with
          | none => false
          | some tok =>
            match verifyAccess secret now tok with
            | .ok payload => payload.sub == p.userId
            | .error _ => false) then .success 200 p
      else if isPubliclyVisible p now then .success 200 p
      else .failure 404 "Pool not found" := by
  unfold getPool
  simp only [Option.getD_some, htrim, hid, Bool.not_true, Bool.false_eq_true, if_false, hfind]

/-- C4: the single-item retrieval returns a stored listing exactly when
it is publicly visible at the evaluation time or the authenticated
caller is its owner; in every other case the answer is the same 404 as
for a missing listing, so an owner can preview a non-public listing
while any other caller cannot distinguish it from an absent one.  The
caller identity is presented as a fresh unexpired bearer token for that
identity, or no token at all. -/
theorem single_item_view_policy (db : List Pool) (p : Pool) (secret : String)
    (callerId : Option String) (iat ttl now : Nat)
    (hnd : (db.map Pool.id).Nodup) (hp : p ∈ db)
    (hid : isObjectId p.id = true) (htrim : strTrim p.id = p.id)
    (hfresh : now < iat + ttl) :
    (isPubliclyVisible p now = true ∨ callerId = some p.userId →
      getPool db (some p.id)
        (callerId.map (fun c => .signed (signAccess secret iat ttl c))) secret now =
        .success 200 p) ∧
    (isPubliclyVisible p now = false → callerId ≠ some p.userId →
      getPool db (some p.id)
        (callerId.map (fun c => .signed (signAccess secret iat ttl c))) secret now =
        .failure 404 "Pool not found") := by
  have hfind := find_by_id_of_nodup db p hnd hp
  have hev := getPool_eval db p
    (callerId.map (fun c => .signed (signAccess secret iat ttl c))) secret now hid htrim hfind
  have howner : (match callerId.map (fun c => TokenWire.signed (signAccess secret iat ttl c)) with
      | none => false
      | some tok =>
        match verifyAccess secret now tok with
        | .ok payload => payload.sub == p.userId
        | .error _ => false) = (callerId == some p.userId) := by
    cases callerId with
    | none => rfl
    | some c =>
      simp only [Option.map_some']
      rw [token_round_trip secret c iat ttl now hfresh]
      simp
  rw [howner] at hev
  constructor
  · intro hcase
    rw [hev]
    rcases hcase with hpub | hown
    · by_cases hoo : callerId == some p.userId <;> simp [hoo, hpub]
    · simp [hown]
  · intro hpub hown
    have hbeq : (callerId == some p.userId) = false := by
      simpa using hown
    rw [hev, hbeq]
    simp [hpub]

/-- Witness for C4: the owner, presenting a fresh token, can retrieve a
concrete invisible listing through the single-item endpoint. -/
theorem single_item_view_policy_witness :
    getPool
      [⟨"665c1a2f7a2f0a3f9b6d1a12", "665c1a2f7a2f0a3f9b6d1a10", "Stari Most", "Mostar",
         4, ["https://example.com/2.jpg"], none, none, none, none, false, none, 7⟩]
      (some "665c1a2f7a2f0a3f9b6d1a12")
      ((some "665c1a2f7a2f0a3f9b6d1a10").map
        (fun c => .signed (signAccess "server-secret" 0 7 c)))
      "server-secret" 3 =
      .success 200
        ⟨"665c1a2f7a2f0a3f9b6d1a12", "665c1a2f7a2f0a3f9b6d1a10", "Stari Most", "Mostar",
          4, ["https://example.com/2.jpg"], none, none, none, none, false, none, 7⟩ :=
  (single_item_view_policy
    [⟨"665c1a2f7a2f0a3f9b6d1a12", "665c1a2f7a2f0a3f9b6d1a10", "Stari Most", "Mostar",
       4, ["https://example.com/2.jpg"], none, none, none, none, false, none, 7⟩]
    ⟨"665c1a2f7a2f0a3f9b6d1a12", "665c1a2f7a2f0a3f9b6d1a10", "Stari Most", "Mostar",
      4, ["https://example.com/2.jpg"], none, none, none, none, false, none, 7⟩
    "server-secret" (some "665c1a2f7a2f0a3f9b6d1a10") 0 7 3
    (by decide) (by decide) (by decide) (by decide) (by decide)).1 (Or.inr rfl)

/- ### Ownership-scoped mutation claims -/

/-- C2: an owner-scoped delete or update authenticated as a caller who
does not own the targeted listing answers 404 and leaves the store
(hence the owner's listing) unchanged; and the store operation is one
atomic conditional pass whose match condition carries both the listing
id and the caller identity as owner — whatever it deletes matches both,
and whatever it updates is the update of a document matching both. -/
theorem owner_scoped_mutation_isolation (db : List Pool) (pA : Pool) (idB : String)
    (input : PoolInput)
    (hnd : (db.map Pool.id).Nodup) (hp : pA ∈ db) (hneq : idB ≠ pA.userId)
    (hid : isObjectId pA.id = true) (hval : poolInputValid input = true) :
    deletePool db idB pA.id = (.failure 404 "Pool not found", db) ∧
    updatePool db idB pA.id input = (.failure 404 "Pool not found", db) ∧
    (∀ (l : List Pool) (pid uid : String) (q : Pool),
      (findOneAndDelete (poolMatches pid uid) l).1 = some q →
        q.id = pid ∧ q.userId = uid) ∧
    (∀ (l : List Pool) (pid uid : String) (f : Pool → Pool) (q : Pool),
      (findOneAndUpdate (poolMatches pid uid) f l).1 = some q →
        ∃ x, x ∈ l ∧ x.id = pid ∧ x.userId = uid ∧ q = f x) := by
  have hnomatch : ∀ q ∈ db, poolMatches pA.id idB q = false := by
    intro q hq
    unfold poolMatches
    by_cases hqid : q.id = pA.id
    · have hqp : q = pA := List.inj_on_of_nodup_map hnd hq hp hqid
      subst hqp
      simp [Ne.symm hneq]
    · simp [hqid]
  refine ⟨?_, ?_, ?_, ?_⟩
  · unfold deletePool
    rw [hid]
    simp [findOneAndDelete_none _ db hnomatch]
  · unfold updatePool
    rw [hid, hval]
    simp [findOneAndUpdate_none _ _ db hnomatch]
  · intro l pid uid q h
    have := findOneAndDelete_matched _ l q h
    unfold poolMatches at this
    simpa using this
  · intro l pid uid f q h
    obtain ⟨x, hx, hpx, hq⟩ := findOneAndUpdate_matched _ f l q h
    unfold poolMatches at hpx
    simp only [Bool.and_eq_true, beq_iff_eq] at hpx
    exact ⟨x, hx, hpx.1, hpx.2, hq⟩

/-- Witness for C2: a concrete delete and update by a non-owner answer
404 and leave the two-listing store untouched. -/
theorem owner_scoped_mutation_isolation_witness :
    deletePool
      [⟨"665c1a2f7a2f0a3f9b6d1a11", "665c1a2f7a2f0a3f9b6d1a10", "Vila Sunce", "Mostar",
         8, ["https://example.com/pool.jpg"], none, none, none, none, true, none, 5⟩]
      "665c1a2f7a2f0a3f9b6d1a20" "665c1a2f7a2f0a3f9b6d1a11" =
      (.failure 404 "Pool not found",
       [⟨"665c1a2f7a2f0a3f9b6d1a11", "665c1a2f7a2f0a3f9b6d1a10", "Vila Sunce", "Mostar",
          8, ["https://example.com/pool.jpg"], none, none, none, none, true, none, 5⟩]) ∧
    updatePool
      [⟨"665c1a2f7a2f0a3f9b6d1a11", "665c1a2f7a2f0a3f9b6d1a10", "Vila Sunce", "Mostar",
         8, ["https://example.com/pool.jpg"], none, none, none, none, true, none, 5⟩]
      "665c1a2f7a2f0a3f9b6d1a20" "665c1a2f7a2f0a3f9b6d1a11"
      ⟨"Nova Vila", "Mostar", 6, ["https://example.com/3.jpg"], none, none, none, none⟩ =
      (.failure 404 "Pool not found",
       [⟨"665c1a2f7a2f0a3f9b6d1a11", "665c1a2f7a2f0a3f9b6d1a10", "Vila Sunce", "Mostar",
          8, ["https://example.com/pool.jpg"], none, none, none, none, true, none, 5⟩]) :=
  ⟨(owner_scoped_mutation_isolation
      [⟨"665c1a2f7a2f0a3f9b6d1a11", "665c1a2f7a2f0a3f9b6d1a10", "Vila Sunce", "Mostar",
         8, ["https://example.com/pool.jpg"], none, none, none, none, true, none, 5⟩]
      ⟨"665c1a2f7a2f0a3f9b6d1a11", "665c1a2f7a2f0a3f9b6d1a10", "Vila Sunce", "Mostar",
        8, ["https://example.com/pool.jpg"], none, none, none, none, true, none, 5⟩
      "665c1a2f7a2f0a3f9b6d1a20"
      ⟨"Nova Vila", "Mostar", 6, ["https://example.com/3.jpg"], none, none, none, none⟩
      (by decide) (by decide) (by decide) (by decide) (by decide)).1,
   (owner_scoped_mutation_isolation
      [⟨"665c1a2f7a2f0a3f9b6d1a11", "665c1a2f7a2f0a3f9b6d1a10", "Vila Sunce", "Mostar",
         8, ["https://example.com/pool.jpg"], none, none, none, none, true, none, 5⟩]
      ⟨"665c1a2f7a2f0a3f9b6d1a11", "665c1a2f7a2f0a3f9b6d1a10", "Vila Sunce", "Mostar",
        8, ["https://example.com/pool.jpg"], none, none, none, none, true, none, 5⟩
      "665c1a2f7a2f0a3f9b6d1a20"
      ⟨"Nova Vila", "Mostar", 6, ["https://example.com/3.jpg"], none, none, none, none⟩
      (by decide) (by decide) (by decide) (by decide) (by decide)).2.1⟩


/- ### Visibility invariant claim -/

/-- Every mutating endpoint preserves the visibility invariant across
the whole store. -/
theorem poolStep_preserves_VisInv (db db' : List Pool) (hstep : PoolStep db db')
    (hinv : ∀ p ∈ db, VisInv p) : ∀ p ∈ db', VisInv p := by
  cases hstep with
  | create uid input fid now =>
    intro p hp
    unfold createPool at hp
    dsimp only at hp
    split at hp
    · exact hinv p hp
    · rcases List.mem_append.mp hp with h1 | h2
      · exact hinv p h1
      · rcases List.mem_singleton.mp h2 with rfl
        intro _
        rfl
  | visibility pid v vu =>
    intro p hp
    unfold setPoolVisibility at hp
    dsimp only at hp
    split at hp
    · exact hinv p hp
    · rcases findOneAndUpdate_mem _ _ db p hp with h1 | ⟨x, _, hfx⟩
      · exact hinv p h1
      · subst hfx
        intro hfalse
        by_cases hv : v
        · simp [hv] at hfalse
        · simp [hv]
  | ownerUpdate uid pid input =>
    intro p hp
    unfold updatePool at hp
    dsimp only at hp
    split at hp
    · exact hinv p hp
    · split at hp
      · exact hinv p hp
      · rcases findOneAndUpdate_mem _ _ db p hp with h1 | ⟨x, hx, hfx⟩
        · exact hinv p h1
        · subst hfx
          intro hfalse
          exact hinv x hx hfalse
  | ownerDelete uid pid =>
    intro p hp
    unfold deletePool at hp
    dsimp only at hp
    split at hp
    · exact hinv p hp
    · exact hinv p (findOneAndDelete_subset _ db p hp)

/-- C10: every listing in a store reachable through the mutating
endpoints satisfies the implicit invariant that an invisible listing
has no expiry timestamp; creation always produces an invisible listing
with a null expiry (the handler never reads client visibility fields),
the visibility toggle forces the expiry to null whenever it clears the
flag, and the owner update leaves both visibility fields untouched. -/
theorem visibility_null_invariant :
    (∀ db, PoolReachable db → ∀ p ∈ db, VisInv p) ∧
    (∀ db uid input fid now st created db2,
      createPool db uid input fid now = (.success st created, db2) →
        created.isVisible = false ∧ created.visibleUntil = none) ∧
    (∀ input p, (applyPoolUpdate input p).isVisible = p.isVisible ∧
      (applyPoolUpdate input p).visibleUntil = p.visibleUntil) ∧
    (∀ db pid vu st updated db2,
      setPoolVisibility db pid false vu = (.success st updated, db2) →
        updated.isVisible = false ∧ updated.visibleUntil = none) := by
  refine ⟨?_, ?_, fun input p => ⟨rfl, rfl⟩, ?_⟩
  · intro db h
    induction h with
    | refl => simp
    | tail hsteps hstep ih => exact poolStep_preserves_VisInv _ _ hstep ih
  · intro db uid input fid now st created db2 h
    unfold createPool at h
    dsimp only at h
    split at h
    · simp at h
    · simp only [Prod.mk.injEq, HResult.success.injEq] at h
      obtain ⟨⟨_, hcreated⟩, _⟩ := h
      subst hcreated
      exact ⟨rfl, rfl⟩
  · intro db pid vu st updated db2 h
    unfold setPoolVisibility at h
    dsimp only at h
    split at h
    · simp at h
    · split at h
      · simp at h
      · rename_i u hu
        simp only [Prod.mk.injEq, HResult.success.injEq] at h
        obtain ⟨⟨_, hupd⟩, _⟩ := h
        subst hupd
        obtain ⟨x, _, _, hfx⟩ := findOneAndUpdate_matched _ _ db u hu
        subst hfx
        exact ⟨rfl, rfl⟩

/-- Witness for C10: the listing created by a concrete valid create
request on the empty store satisfies the invariant; the store after
that request is reachable. -/
theorem visibility_null_invariant_witness :
    VisInv
      ⟨"665c1a2f7a2f0a3f9b6d1a11", "665c1a2f7a2f0a3f9b6d1a10", "Vila Sunce", "Mostar",
        8, ["https://example.com/pool.jpg"], none, none, none, none, false, none, 5⟩ :=
  visibility_null_invariant.1
    (createPool [] "665c1a2f7a2f0a3f9b6d1a10"
      ⟨"Vila Sunce", "Mostar", 8, ["https://example.com/pool.jpg"], none, none, none, none⟩
      "665c1a2f7a2f0a3f9b6d1a11" 5).2
    (Relation.ReflTransGen.single
      (PoolStep.create [] "665c1a2f7a2f0a3f9b6d1a10"
        ⟨"Vila Sunce", "Mostar", 8, ["https://example.com/pool.jpg"], none, none, none, none⟩
        "665c1a2f7a2f0a3f9b6d1a11" 5))
    ⟨"665c1a2f7a2f0a3f9b6d1a11", "665c1a2f7a2f0a3f9b6d1a10", "Vila Sunce", "Mostar",
      8, ["https://example.com/pool.jpg"], none, none, none, none, false, none, 5⟩
    (by decide)


/- ### User serialization and login claims -/

/-- The keys of the raw user document never include a password-reset
token: the reset token is not a schema path. -/
theorem userDoc_no_reset (u : UserRec) (kv : String × String) (h : kv ∈ userDoc u) :
    kv.1 ≠ "resetPasswordToken" := by
  unfold userDoc at h
  cases hav : u.avatarUrl with
  | none =>
    rw [hav] at h
    simp at h
    rcases h with rfl|rfl|rfl|rfl|rfl|rfl|rfl|rfl <;> simp
  | some a =>
    rw [hav] at h
    simp at h
    rcases h with rfl|rfl|rfl|rfl|rfl|rfl|rfl|rfl|rfl <;> simp

/-- The schema transform's output carries neither the password hash nor
a reset token. -/
theorem userToObject_noSecretKeys (u : UserRec) (kv : String × String)
    (h : kv ∈ userToObject u) : kv.1 ≠ "passwordHash" ∧ kv.1 ≠ "resetPasswordToken" := by
  unfold userToObject at h
  rcases List.mem_cons.mp h with rfl | h2
  · exact ⟨by simp, by simp⟩
  · unfold deleteKey at h2
    obtain ⟨h3, hph⟩ := List.mem_filter.mp h2
    obtain ⟨h4, _⟩ := List.mem_filter.mp h3
    exact ⟨by simpa using hph, userDoc_no_reset u kv h4⟩

/-- The serialized user plus the published-pools count decoration still
carries no credential key. -/
theorem noSecretKeys_append_count (u : UserRec) (c : String) :
    NoSecretKeys (userToObject u ++ [("publishedPoolsCount", c)]) := by
  intro kv hkv
  rcases List.mem_append.mp hkv with h1 | h2
  · exact userToObject_noSecretKeys u kv h1
  · rcases List.mem_singleton.mp h2 with rfl
    exact ⟨by simp, by simp⟩

/-- C8: every success response of the operations that return user
objects — register, login, self-update and the admin user listing —
serializes the user without the password hash and without a raw
password-reset token. -/
theorem user_responses_hide_credentials
    (users : List UserRec) (pools : List Pool) (secret fid uid : String)
    (salt iat ttl now : Nat) (fn ln em mb pw : String)
    (av : AvatarIn) (pc : Option PasswordChangeIn) :
    (∀ st body tok db2,
      registerUser users pools secret fid salt iat ttl now fn ln em mb pw =
        (.ok st body tok, db2) → NoSecretKeys body) ∧
    (∀ st body tok,
      loginUser users pools secret iat ttl em pw = .ok st body tok → NoSecretKeys body) ∧
    (∀ st body db2,
      updateSelf users uid salt now fn ln em mb av pc = (.success st body, db2) →
        NoSecretKeys body) ∧
    (∀ body ∈ adminListUsers users, NoSecretKeys body) := by
  refine ⟨?_, ?_, ?_, ?_⟩
  · intro st body tok db2 h
    unfold registerUser at h
    dsimp only at h
    split at h
    · simp at h
    · split at h
      · simp at h
      · simp only [Prod.mk.injEq, AuthResult.ok.injEq] at h
        obtain ⟨⟨_, hbody, _⟩, _⟩ := h
        subst hbody
        exact noSecretKeys_append_count _ _
  · intro st body tok h
    unfold loginUser at h
    dsimp only at h
    split at h
    · simp at h
    · split at h
      · simp at h
      · split at h
        · simp at h
        · simp only [AuthResult.ok.injEq] at h
          obtain ⟨_, hbody, _⟩ := h
          subst hbody
          exact noSecretKeys_append_count _ _
  · intro st body db2 h
    unfold updateSelf at h
    dsimp only at h
    split at h
    · simp at h
    · split at h
      · simp at h
      · split at h
        · simp at h
        · split at h
          · unfold saveSelf at h
            dsimp only at h
            simp only [Prod.mk.injEq, HResult.success.injEq] at h
            obtain ⟨⟨_, hbody⟩, _⟩ := h
            subst hbody
            exact fun kv hkv => userToObject_noSecretKeys _ kv hkv
          · split at h
            · simp at h
            · split at h
              · simp at h
              · unfold saveSelf at h
                dsimp only at h
                simp only [Prod.mk.injEq, HResult.success.injEq] at h
                obtain ⟨⟨_, hbody⟩, _⟩ := h
                subst hbody
                exact fun kv hkv => userToObject_noSecretKeys _ kv hkv
  · intro body hbody
    unfold adminListUsers at hbody
    obtain ⟨u, _, hu⟩ := List.mem_map.mp hbody
    subst hu
    exact fun kv hkv => userToObject_noSecretKeys u kv hkv

/-- Witness for C8: the key of the first entry of a concrete admin
user-listing body is neither the password hash nor a reset token. -/
theorem user_responses_hide_credentials_witness :
    (("id", "665c1a2f7a2f0a3f9b6d1a10") : String × String).1 ≠ "passwordHash" ∧
    (("id", "665c1a2f7a2f0a3f9b6d1a10") : String × String).1 ≠ "resetPasswordToken" :=
  (user_responses_hide_credentials
      [⟨"665c1a2f7a2f0a3f9b6d1a10", "Nedim", "Zolj", "a@x.com", "061234567",
         "7$secret1", none, 1, 1⟩] [] "s" "fresh" "caller" 0 0 7 0 "" "" "" "" ""
      .absent none).2.2.2
    (userToObject ⟨"665c1a2f7a2f0a3f9b6d1a10", "Nedim", "Zolj", "a@x.com", "061234567",
       "7$secret1", none, 1, 1⟩)
    (by decide)
    ("id", "665c1a2f7a2f0a3f9b6d1a10") (by decide)

/-- C9: a login with a well-formed e-mail and password fails with the
same response — 401, message Invalid credentials — whether the e-mail
matches no stored user or matches a user whose stored hash rejects the
password, so the two failure causes are indistinguishable to the
caller. -/
theorem login_failure_indistinguishable
    (users1 : List UserRec) (pools1 : List Pool) (secret1 : String) (iat1 ttl1 : Nat)
    (e1 p1 : String)
    (users2 : List UserRec) (pools2 : List Pool) (secret2 : String) (iat2 ttl2 : Nat)
    (e2 p2 : String) (u : UserRec)
    (hw1 : isEmail (toLowerStr (strTrim e1)) = true)
    (hl1 : 6 ≤ p1.length ∧ p1.length ≤ 25)
    (hnone : users1.find? (fun v => v.email == toLowerStr (strTrim e1)) = none)
    (hw2 : isEmail (toLowerStr (strTrim e2)) = true)
    (hl2 : 6 ≤ p2.length ∧ p2.length ≤ 25)
    (hfound : users2.find? (fun v => v.email == toLowerStr (strTrim e2)) = some u)
    (hbad : verifyPassword p2 u.passwordHash = false) :
    loginUser users1 pools1 secret1 iat1 ttl1 e1 p1 = .fail 401 "Invalid credentials" ∧
    loginUser users2 pools2 secret2 iat2 ttl2 e2 p2 = .fail 401 "Invalid credentials" ∧
    loginUser users1 pools1 secret1 iat1 ttl1 e1 p1 =
      loginUser users2 pools2 secret2 iat2 ttl2 e2 p2 := by
  have h1 : loginUser users1 pools1 secret1 iat1 ttl1 e1 p1 =
      .fail 401 "Invalid credentials" := by
    unfold loginUser
    dsimp only
    rw [hnone]
    simp [hw1, hl1.1, hl1.2]
  have h2 : loginUser users2 pools2 secret2 iat2 ttl2 e2 p2 =
      .fail 401 "Invalid credentials" := by
    unfold loginUser
    dsimp only
    rw [hfound]
    simp [hw2, hl2.1, hl2.2, hbad]
  exact ⟨h1, h2, h1.trans h2.symm⟩

/-- Witness for C9: a concrete unknown-e-mail login and a concrete
wrong-password login produce the identical 401 response. -/
theorem login_failure_indistinguishable_witness :
    loginUser [] [] "s" 0 7 "ghost@x.com" "secret1" = .fail 401 "Invalid credentials" ∧
    loginUser
      [⟨"665c1a2f7a2f0a3f9b6d1a10", "Nedim", "Zolj", "a@x.com", "061234567",
         "7$secret1", none, 1, 1⟩] [] "s" 0 7 "a@x.com" "wrong-pass" =
      .fail 401 "Invalid credentials" ∧
    loginUser [] [] "s" 0 7 "ghost@x.com" "secret1" =
      loginUser
        [⟨"665c1a2f7a2f0a3f9b6d1a10", "Nedim", "Zolj", "a@x.com", "061234567",
           "7$secret1", none, 1, 1⟩] [] "s" 0 7 "a@x.com" "wrong-pass" :=
  login_failure_indistinguishable [] [] "s" 0 7 "ghost@x.com" "secret1"
    [⟨"665c1a2f7a2f0a3f9b6d1a10", "Nedim", "Zolj", "a@x.com", "061234567",
       "7$secret1", none, 1, 1⟩] [] "s" 0 7 "a@x.com" "wrong-pass"
    ⟨"665c1a2f7a2f0a3f9b6d1a10", "Nedim", "Zolj", "a@x.com", "061234567",
      "7$secret1", none, 1, 1⟩
    (by decide) (by decide) (by decide) (by decide) (by decide) (by decide) (by decide)
